import Mathlib

/-!
Verification of src/verification/verify_suggestions.py.

The script is a straight-line Playwright smoke test: it navigates a page to a
local fixture file, checks two ARIA attributes, takes a screenshot, and wraps
the whole body in a single try/except/finally that prints a failure line,
exits 1 on any exception, and always closes the browser.

We embed the script as an explicit trace semantics.  A `Fixture` is the DOM
the page presents after navigation; an `Env` bundles the fixture with the
working directory and the two failure points that are outside the DOM
(navigation raising, screenshot raising) plus the text of each raised error.
`test_suggestions_panel` returns the run state (steps attempted in order,
console lines printed, URL navigated to, screenshot path written) together
with the error that was raised, if any; `main_run` is the
`if __name__ == "__main__"` block around it.
-/

namespace VerifySuggestions

/-- A DOM element of the fixture page: optional id attribute, ARIA role,
accessible name, and the attribute list as name-value pairs. -/
structure Element where
  elemId : Option String
  role : String
  name : String
  attrs : List (String × String)
deriving DecidableEq, Repr

/-- The DOM the fixture page presents once loaded. -/
structure Fixture where
  elements : List Element
deriving DecidableEq, Repr

/-- Value of attribute `a` on element `e`, when present. -/
def getAttribute (e : Element) (a : String) : Option String :=
  (e.attrs.find? (fun p => p.1 == a)).map Prod.snd

/-- Embeds `page.locator("#i")`: the element with id `i`, when present. -/
def locatorById (f : Fixture) (i : String) : Option Element :=
  f.elements.find? (fun e => e.elemId == some i)

/-- Embeds `page.get_by_role(r, name=n)`: the element with role `r` and
accessible name `n`, when present. -/
def getByRole (f : Fixture) (r n : String) : Option Element :=
  f.elements.find? (fun e => e.role == r && e.name == n)

/-- Embeds `expect(loc).to_have_attribute(a, v)`: true when the located
element exists and carries attribute `a` with value exactly `v`; the
assertion raises otherwise. -/
def toHaveAttribute (e? : Option Element) (a v : String) : Bool :=
  match e? with
  | none => false
  | some e => getAttribute e a == some v

/-- The errors the test body can raise, one per failure point. -/
inductive Err
  | nav
  | ariaBusy
  | ariaLabel
  | shot
deriving DecidableEq, Repr

/-- The steps of the script, in source order. -/
inductive Step
  | launch
  | newPage
  | goto
  | assertAriaBusy
  | assertAriaLabel
  | screenshot
  | close
deriving DecidableEq, Repr

/-- Environment of one run: working directory, the fixture DOM, whether
navigation raises, whether the screenshot call raises, and the message text
carried by each possible error. -/
structure Env where
  cwd : String
  fixture : Fixture
  navRaises : Bool
  screenshotRaises : Bool
  errMsg : Err → String

/-- The fixed relative path of the fixture page, from line 6 of the script. -/
def fixtureRelPath : String := "verification/index.html"

/-- The fixed relative path of the screenshot, from line 20 of the script. -/
def screenshotPath : String := "verification/verification.png"

/-- The fixed marker printed before the error text by the handler. -/
def failMarker : String := "❌ Test failed: "

/-- Embeds `os.path.abspath(rel)` for a relative path. -/
def os_path_abspath (cwd rel : String) : String := cwd ++ "/" ++ rel

/-- The URL the script navigates to: line 7, `f"file://{file_path}"`. -/
def pageURL (env : Env) : String :=
  "file://" ++ os_path_abspath env.cwd fixtureRelPath

/-- Observable state accumulated by a run of the test body. -/
structure RunState where
  steps : List Step
  prints : List String
  navigatedURL : Option String
  screenshotWritten : Option String
deriving DecidableEq, Repr

/-- The first assertion of the script (lines 10-11): the element with id
`solutionsContainer` has `aria-busy="false"`. -/
def ariaBusyOk (env : Env) : Bool :=
  toHaveAttribute (locatorById env.fixture "solutionsContainer") "aria-busy" "false"

/-- The second assertion of the script (lines 15-16): the link named
"Inspect source code" has the expected `aria-label`. -/
def ariaLabelOk (env : Env) : Bool :=
  toHaveAttribute (getByRole env.fixture "link" "Inspect source code")
    "aria-label" "Inspect source code (opens in a new window)"

/-- Embeds `test_suggestions_panel(page)` (lines 4-21): navigate, assert
`aria-busy`, assert `aria-label`, screenshot.  Returns the run state together
with the error raised, if any; steps are recorded in the order attempted and
each print happens only after its assertion passed. -/
def test_suggestions_panel (env : Env) : RunState × Option Err :=
  -- page.goto(f"file://{file_path}")
  let s0 : RunState := ⟨[Step.goto], [], some (pageURL env), none⟩
  if env.navRaises then (s0, some Err.nav)
  else
    -- expect(solutions_container).to_have_attribute("aria-busy", "false")
    let s1 : RunState := { s0 with steps := s0.steps ++ [Step.assertAriaBusy] }
    if ariaBusyOk env then
      let s2 : RunState := { s1 with prints := s1.prints ++ ["✅ Verified aria-busy is false"] }
      -- expect(link).to_have_attribute("aria-label", ...)
      let s3 : RunState := { s2 with steps := s2.steps ++ [Step.assertAriaLabel] }
      if ariaLabelOk env then
        let s4 : RunState := { s3 with prints := s3.prints ++ ["✅ Verified aria-label on link"] }
        -- page.screenshot(path="verification/verification.png")
        let s5 : RunState := { s4 with steps := s4.steps ++ [Step.screenshot] }
        if env.screenshotRaises then (s5, some Err.shot)
        else
          (⟨s5.steps, s5.prints ++ ["✅ Screenshot captured"], s5.navigatedURL,
            some screenshotPath⟩, none)
      else (s3, some Err.ariaLabel)
    else (s1, some Err.ariaBusy)

/-- Result of the whole process: steps in order, console output, URL
navigated, screenshot written, process exit code, whether `browser.close()`
ran. -/
structure MainResult where
  steps : List Step
  prints : List String
  navigatedURL : Option String
  screenshotWritten : Option String
  exitCode : Nat
  browserClosed : Bool
deriving DecidableEq, Repr

/-- Embeds the `if __name__ == "__main__"` block (lines 23-33): launch the
browser, open a page, run the test body under `try`; on an exception print
the marker line and exit 1; in `finally` close the browser. -/
def main_run (env : Env) : MainResult :=
  let r := test_suggestions_panel env
  let s := r.1
  match r.2 with
  | none =>
      ⟨[Step.launch, Step.newPage] ++ s.steps ++ [Step.close], s.prints,
        s.navigatedURL, s.screenshotWritten, 0, true⟩
  | some e =>
      ⟨[Step.launch, Step.newPage] ++ s.steps ++ [Step.close],
        s.prints ++ [failMarker ++ env.errMsg e],
        s.navigatedURL, s.screenshotWritten, 1, true⟩

/-- The full step sequence of the script before the close, in source order. -/
def setupAndBody : List Step :=
  [Step.launch, Step.newPage, Step.goto, Step.assertAriaBusy,
   Step.assertAriaLabel, Step.screenshot]

/-- Position in `setupAndBody` of the step at which each error is raised. -/
def errIndex : Err → Nat
  | Err.nav => 2
  | Err.ariaBusy => 3
  | Err.ariaLabel => 4
  | Err.shot => 5

/-! Concrete environments used to exercise the theorems. -/

/-- A fixture satisfying both assertions. -/
def goodFixture : Fixture :=
  ⟨[⟨some "solutionsContainer", "region", "", [("aria-busy", "false")]⟩,
    ⟨none, "link", "Inspect source code",
      [("aria-label", "Inspect source code (opens in a new window)")]⟩]⟩

/-- A fixture whose `solutionsContainer` element lacks the `aria-busy`
attribute. -/
def fixtureMissingBusy : Fixture :=
  ⟨[⟨some "solutionsContainer", "region", "", []⟩,
    ⟨none, "link", "Inspect source code",
      [("aria-label", "Inspect source code (opens in a new window)")]⟩]⟩

/-- A fixture whose link lacks the `aria-label` attribute. -/
def fixtureMissingLabel : Fixture :=
  ⟨[⟨some "solutionsContainer", "region", "", [("aria-busy", "false")]⟩,
    ⟨none, "link", "Inspect source code", []⟩]⟩

/-- A run where everything succeeds. -/
def goodEnv : Env := ⟨"/repo", goodFixture, false, false, fun _ => "boom"⟩

/-- A run against the fixture missing `aria-busy`. -/
def envMissingBusy : Env := ⟨"/repo", fixtureMissingBusy, false, false, fun _ => "boom"⟩

/-- A run against the fixture missing `aria-label`. -/
def envMissingLabel : Env := ⟨"/repo", fixtureMissingLabel, false, false, fun _ => "boom"⟩

/-! Case lemmas: the value of `test_suggestions_panel` in each of the five
control-flow outcomes of the body. -/

/-- Case lemma: navigation raises. -/
theorem run_nav_raises (env : Env) (h : env.navRaises = true) :
    test_suggestions_panel env =
      (⟨[Step.goto], [], some (pageURL env), none⟩, some Err.nav) := by
  simp [test_suggestions_panel, h]

/-- Case lemma: the `aria-busy` assertion fails. -/
theorem run_busy_fails (env : Env) (h1 : env.navRaises = false)
    (h2 : ariaBusyOk env = false) :
    test_suggestions_panel env =
      (⟨[Step.goto, Step.assertAriaBusy], [], some (pageURL env), none⟩,
        some Err.ariaBusy) := by
  simp [test_suggestions_panel, h1, h2]

/-- Case lemma: the `aria-label` assertion fails. -/
theorem run_label_fails (env : Env) (h1 : env.navRaises = false)
    (h2 : ariaBusyOk env = true) (h3 : ariaLabelOk env = false) :
    test_suggestions_panel env =
      (⟨[Step.goto, Step.assertAriaBusy, Step.assertAriaLabel],
        ["✅ Verified aria-busy is false"], some (pageURL env), none⟩,
        some Err.ariaLabel) := by
  simp [test_suggestions_panel, h1, h2, h3]

/-- Case lemma: the screenshot call raises. -/
theorem run_shot_fails (env : Env) (h1 : env.navRaises = false)
    (h2 : ariaBusyOk env = true) (h3 : ariaLabelOk env = true)
    (h4 : env.screenshotRaises = true) :
    test_suggestions_panel env =
      (⟨[Step.goto, Step.assertAriaBusy, Step.assertAriaLabel, Step.screenshot],
        ["✅ Verified aria-busy is false", "✅ Verified aria-label on link"],
        some (pageURL env), none⟩, some Err.shot) := by
  simp [test_suggestions_panel, h1, h2, h3, h4]

/-- Case lemma: the body completes without raising. -/
theorem run_ok (env : Env) (h1 : env.navRaises = false)
    (h2 : ariaBusyOk env = true) (h3 : ariaLabelOk env = true)
    (h4 : env.screenshotRaises = false) :
    test_suggestions_panel env =
      (⟨[Step.goto, Step.assertAriaBusy, Step.assertAriaLabel, Step.screenshot],
        ["✅ Verified aria-busy is false", "✅ Verified aria-label on link",
         "✅ Screenshot captured"],
        some (pageURL env), some screenshotPath⟩, none) := by
  simp [test_suggestions_panel, h1, h2, h3, h4]

/-- Failing `to_have_attribute` means the located element is missing or its
attribute value is not the expected one. -/
theorem toHaveAttribute_eq_false (o : Option Element) (a v : String) :
    toHaveAttribute o a v = false ↔
      (o = none ∨ ∃ el, o = some el ∧ getAttribute el a ≠ some v) := by
  cases o with
  | none => simp [toHaveAttribute]
  | some e => simp [toHaveAttribute]

/-- The step trace of every run is a prefix of the source-order step list
followed by the closing step, with at least navigation attempted. -/
theorem main_run_steps_shape (env : Env) :
    ∃ k, 3 ≤ k ∧ k ≤ 6 ∧
      (main_run env).steps = setupAndBody.take k ++ [Step.close] := by
  cases hn : env.navRaises with
  | true =>
      exact ⟨3, by norm_num, by norm_num,
        by simp [main_run, run_nav_raises env hn, setupAndBody]⟩
  | false =>
      cases hb : ariaBusyOk env with
      | false =>
          exact ⟨4, by norm_num, by norm_num,
            by simp [main_run, run_busy_fails env hn hb, setupAndBody]⟩
      | true =>
          cases hl : ariaLabelOk env with
          | false =>
              exact ⟨5, by norm_num, by norm_num,
                by simp [main_run, run_label_fails env hn hb hl, setupAndBody]⟩
          | true =>
              cases hs : env.screenshotRaises with
              | true =>
                  exact ⟨6, by norm_num, by norm_num,
                    by simp [main_run, run_shot_fails env hn hb hl hs, setupAndBody]⟩
              | false =>
                  exact ⟨6, by norm_num, by norm_num,
                    by simp [main_run, run_ok env hn hb hl hs, setupAndBody]⟩

/-- C1: the process exit code is 0 exactly when navigation, both attribute
assertions and the screenshot all complete without raising, and 1 exactly
when any of them raises. -/
theorem exit_code_partition (env : Env) :
    ((main_run env).exitCode = 0 ↔
      (env.navRaises = false ∧ ariaBusyOk env = true ∧ ariaLabelOk env = true ∧
        env.screenshotRaises = false)) ∧
    ((main_run env).exitCode = 1 ↔
      ¬(env.navRaises = false ∧ ariaBusyOk env = true ∧ ariaLabelOk env = true ∧
        env.screenshotRaises = false)) := by
  cases hn : env.navRaises with
  | true => simp [main_run, run_nav_raises env hn, hn]
  | false =>
      cases hb : ariaBusyOk env with
      | false => simp [main_run, run_busy_fails env hn hb, hn, hb]
      | true =>
          cases hl : ariaLabelOk env with
          | false => simp [main_run, run_label_fails env hn hb hl, hn, hb, hl]
          | true =>
              cases hs : env.screenshotRaises with
              | true => simp [main_run, run_shot_fails env hn hb hl hs, hn, hb, hl, hs]
              | false => simp [main_run, run_ok env hn hb hl hs, hn, hb, hl, hs]

/-- C2: every error raised in the test body reaches the single top-level
handler, which appends exactly one console line consisting of the fixed
failure marker followed by the error text, and makes the process exit 1. -/
theorem failure_boundary (env : Env) (e : Err)
    (h : (test_suggestions_panel env).2 = some e) :
    (main_run env).exitCode = 1 ∧
    (main_run env).prints =
      (test_suggestions_panel env).1.prints ++ [failMarker ++ env.errMsg e] := by
  simp [main_run, h]

/-- Witness for C2: against the fixture missing `aria-busy`, the run exits 1
and its last console line is the failure marker followed by the error. -/
theorem failure_boundary_witness :
    (main_run envMissingBusy).exitCode = 1 ∧
    (main_run envMissingBusy).prints =
      (test_suggestions_panel envMissingBusy).1.prints ++
        [failMarker ++ envMissingBusy.errMsg Err.ariaBusy] :=
  failure_boundary envMissingBusy Err.ariaBusy (by decide)

/-- C3: when navigation succeeds, the first assertion raises exactly when
the element with id `solutionsContainer` is missing or its `aria-busy`
attribute value is not the string "false". -/
theorem first_assertion_iff (env : Env) (hnav : env.navRaises = false) :
    ((test_suggestions_panel env).2 = some Err.ariaBusy ↔
      (locatorById env.fixture "solutionsContainer" = none ∨
       ∃ el, locatorById env.fixture "solutionsContainer" = some el ∧
         getAttribute el "aria-busy" ≠ some "false")) := by
  rw [← toHaveAttribute_eq_false]
  show _ ↔ ariaBusyOk env = false
  cases hb : ariaBusyOk env with
  | false => simp [run_busy_fails env hnav hb]
  | true =>
      cases hl : ariaLabelOk env with
      | false => simp [run_label_fails env hnav hb hl]
      | true =>
          cases hs : env.screenshotRaises with
          | true => simp [run_shot_fails env hnav hb hl hs]
          | false => simp [run_ok env hnav hb hl hs]

/-- Witness for C3: the fixture whose container lacks `aria-busy` makes the
first assertion raise, so the element is missing or its value differs. -/
theorem first_assertion_witness :
    (locatorById envMissingBusy.fixture "solutionsContainer" = none ∨
     ∃ el, locatorById envMissingBusy.fixture "solutionsContainer" = some el ∧
       getAttribute el "aria-busy" ≠ some "false") :=
  (first_assertion_iff envMissingBusy (by decide)).mp (by decide)

/-- C4: when navigation succeeds and the first assertion passes, the second
assertion raises exactly when the link-role element named "Inspect source
code" is missing or its `aria-label` value is not the expected string. -/
theorem second_assertion_iff (env : Env) (hnav : env.navRaises = false)
    (hb : ariaBusyOk env = true) :
    ((test_suggestions_panel env).2 = some Err.ariaLabel ↔
      (getByRole env.fixture "link" "Inspect source code" = none ∨
       ∃ el, getByRole env.fixture "link" "Inspect source code" = some el ∧
         getAttribute el "aria-label" ≠
           some "Inspect source code (opens in a new window)")) := by
  rw [← toHaveAttribute_eq_false]
  show _ ↔ ariaLabelOk env = false
  cases hl : ariaLabelOk env with
  | false => simp [run_label_fails env hnav hb hl]
  | true =>
      cases hs : env.screenshotRaises with
      | true => simp [run_shot_fails env hnav hb hl hs]
      | false => simp [run_ok env hnav hb hl hs]

/-- Witness for C4: the fixture whose link lacks `aria-label` makes the
second assertion raise, so the link is missing or its value differs. -/
theorem second_assertion_witness :
    (getByRole envMissingLabel.fixture "link" "Inspect source code" = none ∨
     ∃ el, getByRole envMissingLabel.fixture "link" "Inspect source code" = some el ∧
       getAttribute el "aria-label" ≠
         some "Inspect source code (opens in a new window)") :=
  (second_assertion_iff envMissingLabel (by decide) (by decide)).mp (by decide)

/-- C5: a run in which navigation and the screenshot succeed and both
assertions hold exits 0, writes the screenshot at the fixed relative path,
and prints exactly the three success lines. -/
theorem success_run (env : Env) (hnav : env.navRaises = false)
    (hshot : env.screenshotRaises = false)
    (h1 : ariaBusyOk env = true) (h2 : ariaLabelOk env = true) :
    (main_run env).exitCode = 0 ∧
    (main_run env).screenshotWritten = some "verification/verification.png" ∧
    (main_run env).prints =
      ["✅ Verified aria-busy is false", "✅ Verified aria-label on link",
       "✅ Screenshot captured"] := by
  simp [main_run, run_ok env hnav h1 h2 hshot, screenshotPath]

/-- Witness for C5: the correct fixture run exits 0, writes the screenshot
and prints the success lines. -/
theorem success_run_witness :
    (main_run goodEnv).exitCode = 0 ∧
    (main_run goodEnv).screenshotWritten = some "verification/verification.png" ∧
    (main_run goodEnv).prints =
      ["✅ Verified aria-busy is false", "✅ Verified aria-label on link",
       "✅ Screenshot captured"] :=
  success_run goodEnv (by decide) (by decide) (by decide) (by decide)

/-- C6: every run attempts its steps in the fixed source order — launch,
new page, navigate, `aria-busy` assertion, `aria-label` assertion,
screenshot — stopping at the first failure, and then closes; the trace is
always a prefix of that order followed by the close. -/
theorem step_order (env : Env) :
    ∃ k, 3 ≤ k ∧ k ≤ 6 ∧
      (main_run env).steps = setupAndBody.take k ++ [Step.close] :=
  main_run_steps_shape env

/-- C7: every run navigates to the file URL built from the absolute form of
the fixed relative path `verification/index.html`. -/
theorem navigation_target (env : Env) :
    (main_run env).navigatedURL =
      some ("file://" ++ os_path_abspath env.cwd "verification/index.html") := by
  cases hn : env.navRaises with
  | true => simp [main_run, run_nav_raises env hn, pageURL, fixtureRelPath]
  | false =>
      cases hb : ariaBusyOk env with
      | false => simp [main_run, run_busy_fails env hn hb, pageURL, fixtureRelPath]
      | true =>
          cases hl : ariaLabelOk env with
          | false => simp [main_run, run_label_fails env hn hb hl, pageURL, fixtureRelPath]
          | true =>
              cases hs : env.screenshotRaises with
              | true => simp [main_run, run_shot_fails env hn hb hl hs, pageURL, fixtureRelPath]
              | false => simp [main_run, run_ok env hn hb hl hs, pageURL, fixtureRelPath]

/-- C8: no step is retried — each step appears at most once in the trace —
and when an error is raised the trace stops right after the raising step,
followed only by the close. -/
theorem no_retry (env : Env) :
    (main_run env).steps.Nodup ∧
    ∀ e, (test_suggestions_panel env).2 = some e →
      (main_run env).steps =
        setupAndBody.take (errIndex e + 1) ++ [Step.close] := by
  cases hn : env.navRaises with
  | true =>
      refine ⟨by simp [main_run, run_nav_raises env hn], ?_⟩
      intro e he
      rw [run_nav_raises env hn] at he
      simp at he
      subst he
      simp [main_run, run_nav_raises env hn, setupAndBody, errIndex]
  | false =>
      cases hb : ariaBusyOk env with
      | false =>
          refine ⟨by simp [main_run, run_busy_fails env hn hb], ?_⟩
          intro e he
          rw [run_busy_fails env hn hb] at he
          simp at he
          subst he
          simp [main_run, run_busy_fails env hn hb, setupAndBody, errIndex]
      | true =>
          cases hl : ariaLabelOk env with
          | false =>
              refine ⟨by simp [main_run, run_label_fails env hn hb hl], ?_⟩
              intro e he
              rw [run_label_fails env hn hb hl] at he
              simp at he
              subst he
              simp [main_run, run_label_fails env hn hb hl, setupAndBody, errIndex]
          | true =>
              cases hs : env.screenshotRaises with
              | true =>
                  refine ⟨by simp [main_run, run_shot_fails env hn hb hl hs], ?_⟩
                  intro e he
                  rw [run_shot_fails env hn hb hl hs] at he
                  simp at he
                  subst he
                  simp [main_run, run_shot_fails env hn hb hl hs, setupAndBody, errIndex]
              | false =>
                  refine ⟨by simp [main_run, run_ok env hn hb hl hs], ?_⟩
                  intro e he
                  rw [run_ok env hn hb hl hs] at he
                  simp at he

/-- Witness for C8: against the fixture missing `aria-busy`, the trace has
no repeated step and stops right after the first assertion, then closes. -/
theorem no_retry_witness :
    (main_run envMissingBusy).steps.Nodup ∧
    (main_run envMissingBusy).steps =
      setupAndBody.take (errIndex Err.ariaBusy + 1) ++ [Step.close] :=
  ⟨(no_retry envMissingBusy).1, (no_retry envMissingBusy).2 Err.ariaBusy (by decide)⟩

/-- C9: `browser.close()` runs on every run, success or failure, and is the
last step of the trace. -/
theorem browser_always_closed (env : Env) :
    (main_run env).browserClosed = true ∧
    ∃ pre, (main_run env).steps = pre ++ [Step.close] := by
  constructor
  · cases h : (test_suggestions_panel env).2 <;> simp [main_run, h]
  · obtain ⟨k, -, -, hs⟩ := main_run_steps_shape env
    exact ⟨setupAndBody.take k, hs⟩

/-- C10: when either attribute assertion fails, the screenshot step is never
attempted, no screenshot path is written, and the console shows exactly the
success lines of the steps completed before the failure plus the failure
line. -/
theorem assertion_failure_no_screenshot (env : Env)
    (h : (test_suggestions_panel env).2 = some Err.ariaBusy ∨
         (test_suggestions_panel env).2 = some Err.ariaLabel) :
    (main_run env).screenshotWritten = none ∧
    Step.screenshot ∉ (main_run env).steps ∧
    ((test_suggestions_panel env).2 = some Err.ariaBusy →
      (main_run env).prints = [failMarker ++ env.errMsg Err.ariaBusy]) ∧
    ((test_suggestions_panel env).2 = some Err.ariaLabel →
      (main_run env).prints =
        ["✅ Verified aria-busy is false",
         failMarker ++ env.errMsg Err.ariaLabel]) := by
  cases hn : env.navRaises with
  | true =>
      rw [run_nav_raises env hn] at h
      simp at h
  | false =>
      cases hb : ariaBusyOk env with
      | false =>
          refine ⟨?_, ?_, ?_, ?_⟩ <;> simp [main_run, run_busy_fails env hn hb]
      | true =>
          cases hl : ariaLabelOk env with
          | false =>
              refine ⟨?_, ?_, ?_, ?_⟩ <;> simp [main_run, run_label_fails env hn hb hl]
          | true =>
              cases hs : env.screenshotRaises with
              | true =>
                  rw [run_shot_fails env hn hb hl hs] at h
                  simp at h
              | false =>
                  rw [run_ok env hn hb hl hs] at h
                  simp at h

/-- Witness for C10: with the fixture missing `aria-label`, no screenshot is
attempted or written and only the first success line precedes the failure
line. -/
theorem assertion_failure_no_screenshot_witness :
    (main_run envMissingLabel).screenshotWritten = none ∧
    Step.screenshot ∉ (main_run envMissingLabel).steps ∧
    (main_run envMissingLabel).prints =
      ["✅ Verified aria-busy is false",
       failMarker ++ envMissingLabel.errMsg Err.ariaLabel] := by
  have h := assertion_failure_no_screenshot envMissingLabel (Or.inr (by decide))
  exact ⟨h.1, h.2.1, h.2.2.2 (by decide)⟩

end VerifySuggestions
